import Mathlib

/-!
Verification of the Avail bridge API service (`src/main.rs`).

The development shallowly embeds the proof-assembly and key-derivation core of
the service: the storage-key codecs (Substrate twox-128 pallet keys and the
Keccak-256 EVM mapping-slot rule), the SCALE fixed-width decoder, and the five
HTTP handlers (`get_eth_proof`, `get_avl_proof`, `get_beacon_slot`,
`get_eth_head`) as pure functions of their upstream outcomes.  Upstream I/O is
represented by explicit outcome values (`Except`-wrapped results, an
environment of storage/beacon oracles); a Rust panic (`unwrap` failure,
`swap_remove` on an empty vector, arithmetic underflow in a debug build) is
modelled by `Option.none`.  Machine integers are `Nat` with explicit reduction
modulo 2^64 or 2^256 where the Rust types wrap.
-/

/-- 2^64, the modulus for 64-bit wrapping arithmetic. -/
def M64 : Nat := 18446744073709551616

/-- Rotate a 64-bit value (a `Nat` below 2^64) left by `r` bits, `0 ≤ r < 64`. -/
def rotl64 (x r : Nat) : Nat :=
  ((x * 2 ^ r) % M64) + (x / 2 ^ (64 - r))

/-- Interpret a byte list as a little-endian natural number. -/
def leNat (bs : List Nat) : Nat :=
  bs.foldr (fun b acc => (b % 256) + 256 * acc) 0

/-- The `n` little-endian bytes of `x`. -/
def toLEBytes (n x : Nat) : List Nat :=
  (List.range n).map (fun i => x / 2 ^ (8 * i) % 256)

/-- The 32-byte big-endian encoding of `x`, as `alloy_primitives::U256::to_be_bytes_vec`
produces it (values are reduced modulo 2^256 by the `U256` type). -/
def beBytes32 (x : Nat) : List Nat :=
  (List.range 32).map (fun i => x / 2 ^ (8 * (31 - i)) % 256)

/-- First prime multiplier of XXH64. -/
def xxPrime1 : Nat := 11400714785074694791

/-- Second prime multiplier of XXH64. -/
def xxPrime2 : Nat := 14029467366897019727

/-- Third prime multiplier of XXH64. -/
def xxPrime3 : Nat := 1609587929392839161

/-- Fourth prime multiplier of XXH64. -/
def xxPrime4 : Nat := 9650029242287828579

/-- Fifth prime multiplier of XXH64. -/
def xxPrime5 : Nat := 2870177450012600261

/-- One XXH64 mixing round. -/
def xxRound (acc input : Nat) : Nat :=
  (rotl64 ((acc + input * xxPrime2) % M64) 31 * xxPrime1) % M64

/-- Read the first 8 bytes of a list as a little-endian 64-bit value. -/
def read64 (bs : List Nat) : Nat := leNat (bs.take 8)

/-- Stripe loop of XXH64: consume 32-byte stripes while at least 32 bytes remain.
`fuel` bounds the iteration count; any value at least the input length works. -/
def xxStripesGo : Nat → Nat → Nat → Nat → Nat → List Nat → Nat × Nat × Nat × Nat × List Nat
  | 0, v1, v2, v3, v4, data => (v1, v2, v3, v4, data)
  | fuel + 1, v1, v2, v3, v4, data =>
    if 32 ≤ data.length then
      xxStripesGo fuel
        (xxRound v1 (read64 data))
        (xxRound v2 (read64 (data.drop 8)))
        (xxRound v3 (read64 (data.drop 16)))
        (xxRound v4 (read64 (data.drop 24)))
        (data.drop 32)
    else (v1, v2, v3, v4, data)

/-- XXH64 merge step folding one stripe accumulator into the running hash. -/
def xxMerge (h v : Nat) : Nat :=
  (((h ^^^ xxRound 0 v) * xxPrime1) % M64 + xxPrime4) % M64

/-- XXH64 final avalanche. -/
def xxAvalanche (h : Nat) : Nat :=
  let h1 := h ^^^ (h >>> 33)
  let h2 := (h1 * xxPrime2) % M64
  let h3 := h2 ^^^ (h2 >>> 29)
  let h4 := (h3 * xxPrime3) % M64
  h4 ^^^ (h4 >>> 32)

/-- XXH64 tail: consume the remaining single bytes, then avalanche. -/
def xxTail1 (h : Nat) : List Nat → Nat
  | [] => xxAvalanche h
  | b :: rest =>
    xxTail1 ((rotl64 (h ^^^ (((b % 256) * xxPrime5) % M64)) 11 * xxPrime1) % M64) rest

/-- XXH64 tail: consume one remaining 4-byte lane if present. -/
def xxTail4 (h : Nat) (data : List Nat) : Nat :=
  match data with
  | b0 :: b1 :: b2 :: b3 :: rest =>
    xxTail1 ((rotl64 (h ^^^ ((leNat [b0, b1, b2, b3] * xxPrime1) % M64)) 23 * xxPrime2 % M64
      + xxPrime3) % M64) rest
  | _ => xxTail1 h data

/-- XXH64 tail: consume the remaining 8-byte lanes. -/
def xxTail8 (h : Nat) : List Nat → Nat
  | b0 :: b1 :: b2 :: b3 :: b4 :: b5 :: b6 :: b7 :: rest =>
    xxTail8 ((rotl64 (h ^^^ xxRound 0 (leNat [b0, b1, b2, b3, b4, b5, b6, b7])) 27 * xxPrime1 % M64
      + xxPrime4) % M64) rest
  | other => xxTail4 h other

/-- The XXH64 hash of a byte list with the given seed.  Checked during development
against the reference vectors for the empty string, sub-32-byte inputs and a
39-byte input exercising the stripe loop. -/
def xxh64 (seed : Nat) (data : List Nat) : Nat :=
  let hrest : Nat × List Nat :=
    if 32 ≤ data.length then
      let s := xxStripesGo data.length
        ((seed + xxPrime1 + xxPrime2) % M64)
        ((seed + xxPrime2) % M64)
        (seed % M64)
        ((seed % M64 + (M64 - xxPrime1)) % M64)
        data
      match s with
      | (v1, v2, v3, v4, rest) =>
        let h0 := (rotl64 v1 1 + rotl64 v2 7 + rotl64 v3 12 + rotl64 v4 18) % M64
        (xxMerge (xxMerge (xxMerge (xxMerge h0 v1) v2) v3) v4, rest)
    else ((seed + xxPrime5) % M64, data)
  xxTail8 ((hrest.1 + data.length) % M64) hrest.2

/-- UTF-8 bytes of an ASCII string (code points below 128 encode as themselves);
models Rust's `str::as_bytes` for the ASCII constants used by the service. -/
def strBytes (s : String) : List Nat := s.data.map Char.toNat

/-- Substrate's `twox_128` (as in `sp_io::hashing::twox_128`): the little-endian
concatenation of XXH64 with seeds 0 and 1.  Checked during development against
the well-known pallet hashes of "System" and "Account". -/
def twox_128 (data : List Nat) : List Nat :=
  toLEBytes 8 (xxh64 0 data) ++ toLEBytes 8 (xxh64 1 data)

/-- The lowercase hex digit character of a value below 16, by code point
arithmetic: digits start at code 48, letters at code 97. -/
def hexDigit (b : Nat) : Char :=
  if b < 10 then Char.ofNat (48 + b) else Char.ofNat (87 + b)

/-- Lowercase hex encoding of a byte list, as `alloy_primitives::hex::encode`. -/
def hexEncode (bs : List Nat) : String :=
  ⟨bs.foldr (fun b acc => hexDigit (b / 16 % 16) :: hexDigit (b % 16) :: acc) []⟩

/-- Value of one hex digit character, or `none` when the character is not a hex digit. -/
def hexVal (c : Char) : Option Nat :=
  if '0' ≤ c ∧ c ≤ '9' then some (c.toNat - '0'.toNat)
  else if 'a' ≤ c ∧ c ≤ 'f' then some (c.toNat - 'a'.toNat + 10)
  else if 'A' ≤ c ∧ c ≤ 'F' then some (c.toNat - 'A'.toNat + 10)
  else none

/-- Decode a list of hex characters pairwise into bytes; fails on an odd length
or a non-hex character. -/
def hexPairs : List Char → Option (List Nat)
  | [] => some []
  | [_] => none
  | c1 :: c2 :: rest => do
    let hi ← hexVal c1
    let lo ← hexVal c2
    let tl ← hexPairs rest
    pure ((16 * hi + lo) :: tl)

/-- Strip a leading `0x` from a string's characters, as `str::strip_prefix`
with fallback to the unchanged input. -/
def strip0x (s : String) : List Char :=
  match s.data with
  | '0' :: 'x' :: rest => rest
  | other => other

/-- `sp_core::bytes::from_hex`: strip an optional `0x` prefix and hex-decode. -/
def from_hex (s : String) : Option (List Nat) :=
  hexPairs (strip0x s)

/-- SCALE decoding of a fixed-width unsigned 64-bit integer (`u64: Decode`):
read 8 little-endian bytes, failing when fewer are available. -/
def scaleDecodeU64 (bs : List Nat) : Option Nat :=
  if 8 ≤ bs.length then some (leNat (bs.take 8)) else none

/-- The composite used by `get_eth_head` on each raw storage read:
`sp_core::bytes::from_hex(..).unwrap()` then `u64::decode(..).unwrap()`,
with `none` standing for the panic of either `unwrap`. -/
def decodeU64FromHex (s : String) : Option Nat :=
  (from_hex s).bind scaleDecodeU64

/-- One step of the degree-8 LFSR generating the Keccak round-constant bits. -/
def keccakLfsr (r : Nat) : Nat :=
  if r * 2 < 256 then r * 2 else (r * 2) ^^^ 0x171

/-- Bit `t` of the Keccak round-constant sequence (`rc(t)` of the reference). -/
def rcBit (t : Nat) : Nat :=
  (Nat.iterate keccakLfsr (t % 255) 1) % 2

/-- Round constant of round `ir` of Keccak-f[1600]: bit `rc(j + 7 ir)` placed at
position `2^j - 1` for `j = 0 .. 6`. -/
def keccakRCval (ir : Nat) : Nat :=
  (List.range 7).foldl (fun acc j => acc + rcBit (j + 7 * ir) * 2 ^ (2 ^ j - 1)) 0

/-- The 24 round constants of Keccak-f[1600], generated from the LFSR (checked
during development against the reference table). -/
def keccakRC : List Nat := (List.range 24).map keccakRCval

/-- The pi-step walk generating the rho offsets: starting from lane (1, 0),
step `t` assigns offset `(t+1)(t+2)/2 mod 64` and moves `(x, y)` to
`(y, (2x + 3y) mod 5)`. -/
def rhoWalk (t : Nat) (p : Nat × Nat) (fuel : Nat) : List ((Nat × Nat) × Nat) :=
  match fuel with
  | 0 => []
  | fuel + 1 =>
    (p, ((t + 1) * (t + 2) / 2) % 64) :: rhoWalk (t + 1) (p.2, (2 * p.1 + 3 * p.2) % 5) fuel

/-- Rho rotation offset of lane `(x, y)`; lane (0, 0) is never visited by the
walk and keeps offset 0. -/
def rhoOffAt (x y : Nat) : Nat :=
  ((((rhoWalk 0 (1, 0) 24).filter (fun q => q.1 == (x, y))).map Prod.snd).headD 0)

/-- Rho rotation offsets of Keccak-f, indexed by `x + 5 * y` (checked during
development against the reference table). -/
def rhoOff : List Nat := (List.range 25).map (fun i => rhoOffAt (i % 5) (i / 5))

/-- Lane `(x, y)` of a 25-lane Keccak state. -/
def lane (s : List Nat) (x y : Nat) : Nat := s.getD (x + 5 * y) 0

/-- Column parity used by the theta step. -/
def thetaC (s : List Nat) (x : Nat) : Nat :=
  lane s x 0 ^^^ lane s x 1 ^^^ lane s x 2 ^^^ lane s x 3 ^^^ lane s x 4

/-- Theta step of Keccak-f. -/
def kTheta (s : List Nat) : List Nat :=
  (List.range 25).map (fun i =>
    lane s (i % 5) (i / 5) ^^^ thetaC s ((i % 5 + 4) % 5) ^^^ rotl64 (thetaC s ((i % 5 + 1) % 5)) 1)

/-- Combined rho-and-pi step: output lane `(X, Y)` is the rotated input lane `(x, y)`
with `y = X` and `(2x + 3y) % 5 = Y`. -/
def kRhoPi (s : List Nat) : List Nat :=
  (List.range 25).map (fun j =>
    let X := j % 5
    let Y := j / 5
    let x := (3 * (Y + 15 - 3 * X)) % 5
    rotl64 (lane s x X) (rhoOff.getD (x + 5 * X) 0))

/-- Chi step of Keccak-f. -/
def kChi (s : List Nat) : List Nat :=
  (List.range 25).map (fun j =>
    let X := j % 5
    let Y := j / 5
    lane s X Y ^^^ ((lane s ((X + 1) % 5) Y ^^^ 0xffffffffffffffff) &&& lane s ((X + 2) % 5) Y))

/-- Iota step: mix the round constant into lane `(0, 0)`. -/
def kIota (rc : Nat) (s : List Nat) : List Nat :=
  match s with
  | [] => []
  | a :: rest => (a ^^^ rc) :: rest

/-- The Keccak-f[1600] permutation: 24 rounds of theta, rho-pi, chi, iota. -/
def keccakF (s : List Nat) : List Nat :=
  keccakRC.foldl (fun st rc => kIota rc (kChi (kRhoPi (kTheta st)))) s

/-- Pad a message to a multiple of the 136-byte rate with the Keccak
`0x01 .. 0x80` pattern (`0x81` when only one byte of padding fits). -/
def keccakPad (msg : List Nat) : List Nat :=
  let padLen := 136 - msg.length % 136
  if padLen = 1 then msg ++ [0x81]
  else msg ++ [0x01] ++ List.replicate (padLen - 2) 0 ++ [0x80]

/-- The 17 little-endian 64-bit lanes of one 136-byte rate block. -/
def blockLanes (block : List Nat) : List Nat :=
  (List.range 17).map (fun i => leNat ((block.drop (8 * i)).take 8))

/-- Xor a rate block into the first 17 lanes of the state. -/
def xorLanes (s ls : List Nat) : List Nat :=
  (List.range 25).map (fun i => s.getD i 0 ^^^ ls.getD i 0)

/-- Absorb a padded message block by block; `fuel` bounds the number of steps. -/
def keccakAbsorbGo : Nat → List Nat → List Nat → List Nat
  | _, s, [] => s
  | 0, s, _ => s
  | fuel + 1, s, data =>
    keccakAbsorbGo fuel (keccakF (xorLanes s (blockLanes (data.take 136)))) (data.drop 136)

/-- Keccak-256 (as in the `sha3` crate's `Keccak256`): absorb at rate 136 with
Keccak padding, squeeze the first 32 bytes.  Checked during development against
the reference digests of the empty string and of "abc". -/
def keccak256 (msg : List Nat) : List Nat :=
  let padded := keccakPad msg
  let s := keccakAbsorbGo padded.length (List.replicate 25 0) padded
  toLEBytes 8 (s.getD 0 0) ++ toLEBytes 8 (s.getD 1 0) ++ toLEBytes 8 (s.getD 2 0)
    ++ toLEBytes 8 (s.getD 3 0)

/-- Error of the `jsonrpsee` HTTP client: either a transport-level failure or a
well-formed JSON-RPC error response.  The service's handlers never distinguish
the two constructors; they only render the message. -/
inductive RpcError where
  | transport (msg : String)
  | call (msg : String)
deriving DecidableEq

/-- The string the Rust code obtains from `err.to_string()` on a client error. -/
def RpcError.message : RpcError → String
  | .transport msg => msg
  | .call msg => msg

instance {ε α : Type} [DecidableEq ε] [DecidableEq α] : DecidableEq (Except ε α) := fun x y =>
  match x, y with
  | .error a, .error b =>
    if h : a = b then .isTrue (by rw [h]) else .isFalse (by intro hc; cases hc; exact h rfl)
  | .error _, .ok _ => .isFalse (by intro hc; cases hc)
  | .ok _, .error _ => .isFalse (by intro hc; cases hc)
  | .ok a, .ok b =>
    if h : a = b then .isTrue (by rw [h]) else .isFalse (by intro hc; cases hc; exact h rfl)

/-- Body of a shaped HTTP response: a typed success payload or the
`{ "error": .. }` object carrying a message. -/
inductive ApiBody (α : Type) where
  | success (val : α)
  | failure (error : String)
deriving DecidableEq

/-- Cache directive attached to immutable successful results. -/
def cacheForever : String := "public, max-age=31536000"

/-- Cache directive attached to errors and transient results. -/
def cacheShort : String := "max-age=300, must-revalidate"

/-- The `data_proof` object of the `kate_queryDataProofV2` RPC response. -/
structure DataProof where
  data_root : Nat
  blob_root : Nat
  bridge_root : Nat
  proof : List Nat
  leaf_index : Nat
  leaf : Nat
deriving DecidableEq

/-- The `kate_queryDataProofV2` RPC response. -/
structure KateQueryDataProofV2Response where
  data_proof : DataProof
deriving DecidableEq

/-- The `data` object of a successful Succinct (relay/attestation) API response. -/
structure SuccinctAPIData where
  range_hash : Nat
  data_commitment : Nat
  merkle_branch : List Nat
  index : Nat
deriving DecidableEq

/-- A deserialized Succinct API response; every field is optional in the JSON. -/
structure SuccinctAPIResponse where
  data : Option SuccinctAPIData
  error : Option String
  success : Option Bool
deriving DecidableEq

/-- The aggregated proof bundle returned by `get_eth_proof`; exactly the eleven
fields of the Rust `AggregatedResponse`. -/
structure AggregatedResponse where
  data_root_proof : List Nat
  leaf_proof : List Nat
  range_hash : Nat
  data_root_index : Nat
  leaf : Nat
  leaf_index : Nat
  data_root : Nat
  blob_root : Nat
  bridge_root : Nat
  data_root_commitment : Nat
  block_hash : Nat
deriving DecidableEq

/-- One storage-proof entry of an `eth_getProof` response. -/
structure StorageProof where
  proof : List String
deriving DecidableEq

/-- An `eth_getProof` response: account proof plus a list of storage proofs. -/
structure AccountStorageProofResponse where
  account_proof : List String
  storage_proof : List StorageProof
deriving DecidableEq

/-- The success body of `get_avl_proof`. -/
structure EthProofResponse where
  account_proof : List String
  storage_proof : List String
deriving DecidableEq

/-- The `data` object of a beaconcha.in slot response. -/
structure BeaconAPIResponseData where
  blockroot : Nat
  exec_block_number : Nat
  epoch : Nat
  slot : Nat
  exec_state_root : Nat
deriving DecidableEq

/-- A deserialized beaconcha.in slot response: its own `status` field plus data. -/
structure BeaconAPIResponse where
  status : String
  data : BeaconAPIResponseData
deriving DecidableEq

/-- The success body of `get_eth_head`. -/
structure HeadResponse where
  slot : Nat
  eth_block_number : Nat
  timestamp : Nat
  timestamp_diff : Nat
deriving DecidableEq

/-- Handler `get_eth_proof` (route `/eth/proof/:block_hash`), as a pure function
of the two joined upstream outcomes.  The outer `Except String` of each input is
the `tokio::spawn` join result; the inner value is the upstream call's own
result.  Mirrors the Rust match structure: the DA-proof branch is examined
first (inner client error → 400, join error → 500), then the Succinct branch
(payload with `data` → success; else `success == Some false` with an error
message → 404 verbatim; transport/deserialize error → 500; any other payload
→ 500 "Succinct API returned no data"). -/
def get_eth_proof (block_hash : Nat)
    (data_proof : Except String (Except RpcError KateQueryDataProofV2Response))
    (succinct_response : Except String (Except String SuccinctAPIResponse)) :
    Nat × String × ApiBody AggregatedResponse :=
  match data_proof with
  | .error err => (500, cacheShort, .failure err)
  | .ok (.error err) => (400, cacheShort, .failure err.message)
  | .ok (.ok data_proof_res) =>
    match succinct_response with
    | .error err => (500, cacheShort, .failure err)
    | .ok (.error err) => (500, cacheShort, .failure err)
    | .ok (.ok r) =>
      match r.data with
      | some succinct_data =>
        (200, cacheForever, .success {
          data_root_proof := succinct_data.merkle_branch
          leaf_proof := data_proof_res.data_proof.proof
          range_hash := succinct_data.range_hash
          data_root_index := succinct_data.index
          leaf := data_proof_res.data_proof.leaf
          leaf_index := data_proof_res.data_proof.leaf_index
          data_root := data_proof_res.data_proof.data_root
          blob_root := data_proof_res.data_proof.blob_root
          bridge_root := data_proof_res.data_proof.bridge_root
          data_root_commitment := succinct_data.data_commitment
          block_hash := block_hash })
      | none =>
        match r.success, r.error with
        | some false, some msg => (404, cacheShort, .failure msg)
        | _, _ => (500, cacheShort, .failure "Succinct API returned no data")

/-- The storage slot key `get_avl_proof` hashes for a message id:
`Keccak256(message_id.to_be_bytes_vec() ++ U256::from(1).to_be_bytes_vec())`. -/
def avl_storage_slot_key (message_id : Nat) : List Nat :=
  keccak256 (beBytes32 message_id ++ beBytes32 1)

/-- Modelled from the spec: `StorageKeyCodec.deriveMappingSlotKey` as §4.1 words
it — big-endian-encode both operands to 32 bytes, concatenate `key || slot`,
Keccak-256 the 64-byte input.  The source only contains the slot-1 instance
inlined in `get_avl_proof`; this general form exists for comparison. -/
def deriveMappingSlotKey (mappingKey slotIndex : Nat) : List Nat :=
  keccak256 (beBytes32 mappingKey ++ beBytes32 slotIndex)

/-- Handler `get_avl_proof` (route `/avl/proof/:message_id`), as a pure function
of the `eth_getProof` outcome.  `none` models the panic of
`storage_proof.swap_remove(0)` on an empty vector; `swap_remove(0)` on a
non-empty vector returns its first element. -/
def get_avl_proof (proof : Except RpcError AccountStorageProofResponse) :
    Option (Nat × String × ApiBody EthProofResponse) :=
  match proof with
  | .error err => some (500, cacheShort, .failure err.message)
  | .ok resp =>
    match resp.storage_proof with
    | [] => none
    | sp :: _ =>
      some (200, cacheForever, .success {
        account_proof := resp.account_proof
        storage_proof := sp.proof })

/-- Handler `get_beacon_slot` (route `/beacon/slot/:slot_number`), as a pure
function of the beacon lookup outcome.  The outer `Except String` is the
transport result, the inner one the JSON deserialization.  A parsed body is
valid only when its own `status` field is `"OK"`. -/
def get_beacon_slot (resp : Except String (Except String BeaconAPIResponse)) :
    Nat × String × ApiBody Nat :=
  match resp with
  | .error err => (500, cacheShort, .failure err)
  | .ok (.error err) => (500, cacheShort, .failure err)
  | .ok (.ok rsp_data) =>
    if rsp_data.status = "OK" then
      (200, cacheForever, .success rsp_data.data.exec_block_number)
    else
      (500, cacheShort, .failure "Cannot fetch slot data")

/-- The first storage key read by `get_eth_head`:
`"0x" ++ hex(twox_128("Succinct")) ++ hex(twox_128("Head"))`. -/
def succinct_head_key : String :=
  "0x" ++ hexEncode (twox_128 (strBytes "Succinct")) ++ hexEncode (twox_128 (strBytes "Head"))

/-- The second storage key read by `get_eth_head`, derived from the raw string
returned by the first read:
`"0x" ++ hex(twox_128("Succinct")) ++ hex(twox_128("Timestamps")) ++ first_result[2..]`. -/
def timestamp_key (slot_storage_response : String) : String :=
  "0x" ++ hexEncode (twox_128 (strBytes "Succinct"))
    ++ hexEncode (twox_128 (strBytes "Timestamps"))
    ++ slot_storage_response.drop 2

/-- Rust `u64` wrapping subtraction `a - b` (release-profile semantics; a debug
build would panic on underflow). -/
def wrapSub64 (a b : Nat) : Nat :=
  (a % M64 + (M64 - b % M64)) % M64

/-- The upstream world observed by one `get_eth_head` request: the DA node's
`state_getStorage` keyed by storage key, the beaconcha.in lookup keyed by slot
(`none` inside `ok` models a body that fails to deserialize), and the consumer
clock `Utc::now().timestamp() as u64`. -/
structure HeadEnv where
  storage : String → Except RpcError String
  beacon : Nat → Except String (Option BeaconAPIResponse)
  now : Nat

/-- Handler `get_eth_head` (route `/eth/head`), as a pure function of the
environment.  Mirrors the Rust control flow: read storage at
`succinct_head_key` (error → 500); read storage at the derived
`timestamp_key` (error → 500); decode both raw reads as SCALE `u64` via
`from_hex(..).unwrap()` / `Decode::decode(..).unwrap()` (`none` models the
panic on malformed bytes); call the beacon API with the decoded slot
(transport error → 500, unparseable body → 500); on success answer 200 with
slot, timestamp, `now - timestamp` (u64 wrapping) and the exec block number.
The beacon body's `status` field is never inspected. -/
def get_eth_head (env : HeadEnv) : Option (Nat × String × ApiBody HeadResponse) :=
  match env.storage succinct_head_key with
  | .error err => some (500, cacheShort, .failure err.message)
  | .ok slot_storage_response =>
    match env.storage (timestamp_key slot_storage_response) with
    | .error err => some (500, cacheShort, .failure err.message)
    | .ok timestamp_storage_response =>
      match decodeU64FromHex slot_storage_response with
      | none => none
      | some slot =>
        match decodeU64FromHex timestamp_storage_response with
        | none => none
        | some timestamp =>
          match env.beacon slot with
          | .error err => some (500, cacheShort, .failure err)
          | .ok none => some (500, cacheShort, .failure "Cannot get beacon api response")
          | .ok (some response_data) =>
            some (200, cacheForever, .success {
              slot := slot
              eth_block_number := response_data.data.exec_block_number
              timestamp := timestamp
              timestamp_diff := wrapSub64 env.now timestamp })

/-- Cancel a common left factor of a string concatenation. -/
theorem string_append_cancel {a b c : String} (h : a ++ b = a ++ c) : b = c := by
  obtain ⟨ad⟩ := a
  obtain ⟨bd⟩ := b
  obtain ⟨cd⟩ := c
  exact congrArg String.mk (List.append_cancel_left (congrArg String.data h))

/-- Success path of `get_eth_head`: with both storage reads answered, both raw
values decodable and a parsed beacon body, the handler answers 200 with the
decoded slot, timestamp, wrapped diff and the beacon's exec block number. -/
theorem get_eth_head_ok (env : HeadEnv) (v w : String) (s t : Nat) (r : BeaconAPIResponse)
    (h1 : env.storage succinct_head_key = .ok v)
    (h2 : env.storage (timestamp_key v) = .ok w)
    (h3 : decodeU64FromHex v = some s) (h4 : decodeU64FromHex w = some t)
    (h5 : env.beacon s = .ok (some r)) :
    get_eth_head env = some (200, cacheForever,
      .success ⟨s, r.data.exec_block_number, t, wrapSub64 env.now t⟩) := by
  simp [get_eth_head, h1, h2, h3, h4, h5]

/-- Concrete DA inclusion-proof fixture. -/
def kate0 : KateQueryDataProofV2Response := ⟨⟨11, 12, 13, [14, 15], 3, 16⟩⟩

/-- Concrete relay attestation data fixture. -/
def sdata0 : SuccinctAPIData := ⟨21, 22, [23, 24], 2⟩

/-- Concrete successful relay payload fixture. -/
def succ0 : SuccinctAPIResponse := ⟨some sdata0, none, some true⟩

/-- C1: `get_eth_proof` is all-or-nothing over the two joined upstream
outcomes: the answer is 200 exactly when the DA branch returned a proof and
the relay branch returned a payload carrying data, and in that case the body
is the success bundle whose eleven fields are filled field-wise from the two
results (and the requested block hash); every other combination yields an
error body, so no partial bundle is ever returned. -/
theorem getDataProof_all_or_nothing (bh : Nat)
    (dp : Except String (Except RpcError KateQueryDataProofV2Response))
    (sr : Except String (Except String SuccinctAPIResponse)) :
    ((get_eth_proof bh dp sr).1 = 200 ↔
      ∃ d r sd, dp = .ok (.ok d) ∧ sr = .ok (.ok r) ∧ r.data = some sd) ∧
    (∀ d r sd, dp = .ok (.ok d) → sr = .ok (.ok r) → r.data = some sd →
      get_eth_proof bh dp sr = (200, cacheForever, .success
        ⟨sd.merkle_branch, d.data_proof.proof, sd.range_hash, sd.index,
         d.data_proof.leaf, d.data_proof.leaf_index, d.data_proof.data_root,
         d.data_proof.blob_root, d.data_proof.bridge_root, sd.data_commitment, bh⟩)) := by
  constructor
  · constructor
    · intro h
      rcases dp with j | dpi
      · simp [get_eth_proof] at h
      · rcases dpi with e | d
        · simp [get_eth_proof] at h
        · rcases sr with j2 | sri
          · simp [get_eth_proof] at h
          · rcases sri with e2 | r
            · simp [get_eth_proof] at h
            · rcases r with ⟨rd, re, rs⟩
              rcases rd with _ | sd
              · rcases rs with _ | b
                · simp [get_eth_proof] at h
                · cases b
                  · rcases re with _ | m
                    · simp [get_eth_proof] at h
                    · simp [get_eth_proof] at h
                  · simp [get_eth_proof] at h
              · exact ⟨d, ⟨some sd, re, rs⟩, sd, rfl, rfl, rfl⟩
    · rintro ⟨d, r, sd, rfl, rfl, hr⟩
      simp [get_eth_proof, hr]
  · rintro d r sd rfl rfl hr
    simp [get_eth_proof, hr]

/-- C1 witness: a concrete pair of successful upstream results produces the
fully populated eleven-field bundle. -/
theorem getDataProof_all_or_nothing_witness :
    get_eth_proof 7 (.ok (.ok kate0)) (.ok (.ok succ0)) =
      (200, cacheForever, .success ⟨[23, 24], [14, 15], 21, 2, 16, 3, 11, 12, 13, 22, 7⟩) :=
  (getDataProof_all_or_nothing 7 (.ok (.ok kate0)) (.ok (.ok succ0))).2 kate0 succ0 sdata0
    rfl rfl rfl

/-- C3: the mapping slot key is Keccak-256 of the 64-byte big-endian
concatenation `key || slot`; `get_avl_proof`'s inlined derivation is the
spec-level `deriveMappingSlotKey` at slot index 1; and at key 1, slot 1 the
input is the 64-byte sequence `0x00..01 || 0x00..01`. -/
theorem deriveMappingSlotKey_matches_evm_rule :
    (∀ key slot : Nat,
      deriveMappingSlotKey key slot = keccak256 (beBytes32 key ++ beBytes32 slot) ∧
      (beBytes32 key ++ beBytes32 slot).length = 64) ∧
    (∀ message_id : Nat, avl_storage_slot_key message_id = deriveMappingSlotKey message_id 1) ∧
    deriveMappingSlotKey 1 1 =
      keccak256 ((List.replicate 31 0 ++ [1]) ++ (List.replicate 31 0 ++ [1])) := by
  refine ⟨fun key slot => ⟨rfl, ?_⟩, fun message_id => rfl, ?_⟩
  · simp [beBytes32]
  · exact congrArg keccak256 (by decide)

/-- C5 counterexample: a relay payload with `success == false` (and an error
message) that nevertheless carries a `data` object is answered 200, not 404 —
the claim's "regardless of whatever else the payload contains" fails. -/
theorem relay_success_false_with_data_is_success :
    (get_eth_proof 7 (.ok (.ok kate0))
      (.ok (.ok ⟨some sdata0, some "range not found", some false⟩))).1 = 200 ∧
    (get_eth_proof 7 (.ok (.ok kate0))
      (.ok (.ok ⟨some sdata0, some "range not found", some false⟩))).1 ≠ 404 :=
  ⟨rfl, by decide⟩

/-- C5 amended: when the DA branch succeeded, a relay payload with no data,
`success == Some false` and an error message is answered 404 with the
upstream message verbatim; a payload that also carries data is treated as
success, and one with no error message falls to the 500 "no data" branch. -/
theorem getDataProof_relay_failure_mapping (bh : Nat) (d : KateQueryDataProofV2Response)
    (msg : String) (sd : SuccinctAPIData) (er : Option String) :
    get_eth_proof bh (.ok (.ok d)) (.ok (.ok ⟨none, some msg, some false⟩)) =
      (404, cacheShort, .failure msg) ∧
    (get_eth_proof bh (.ok (.ok d)) (.ok (.ok ⟨some sd, er, some false⟩))).1 = 200 ∧
    get_eth_proof bh (.ok (.ok d)) (.ok (.ok ⟨none, none, some false⟩)) =
      (500, cacheShort, .failure "Succinct API returned no data") :=
  ⟨rfl, rfl, rfl⟩

/-- C6 counterexample: a transport-level failure of the DA request (the inner
client error) is answered 400, not the claimed 500. -/
theorem da_transport_failure_gets_400 :
    (get_eth_proof 7 (.ok (.error (.transport "connection refused"))) (.ok (.ok succ0))).1 = 400 ∧
    (get_eth_proof 7 (.ok (.error (.transport "connection refused"))) (.ok (.ok succ0))).1 ≠ 500 :=
  ⟨rfl, by decide⟩

/-- C6 amended: every inner DA client error — transport failure and well-formed
RPC error response alike — maps to 400 with the rendered message; 500 arises on
the DA branch only when the spawned task itself fails to join.  The two inner
failure kinds are not distinguished. -/
theorem da_branch_error_statuses (bh : Nat) (e : RpcError) (j : String)
    (sr : Except String (Except String SuccinctAPIResponse)) :
    get_eth_proof bh (.ok (.error e)) sr = (400, cacheShort, .failure e.message) ∧
    get_eth_proof bh (.error j) sr = (500, cacheShort, .failure j) :=
  ⟨rfl, rfl⟩

/-- C7: `get_avl_proof` returns exactly the first storage-proof entry's proof;
any further entries are discarded (the result does not depend on them). -/
theorem getEthProof_selects_first_storage_proof (ap : List String) (sp : StorageProof)
    (rest : List StorageProof) :
    get_avl_proof (.ok ⟨ap, sp :: rest⟩) =
      some (200, cacheForever, .success ⟨ap, sp.proof⟩) :=
  rfl

/-- C8: on an `eth_getProof` response with no storage-proof entries the handler
panics (`swap_remove(0)` on an empty vector, modelled by `none`): the success
branch is unreachable and no empty-list success response exists. -/
theorem getEthProof_empty_storage_proof_panics (ap : List String) :
    get_avl_proof (.ok ⟨ap, []⟩) = none :=
  rfl

/-- Concrete parsed beacon response with status "OK". -/
def beaconOK : BeaconAPIResponse := ⟨"OK", ⟨0, 500, 1, 100, 0⟩⟩

/-- Concrete parsed beacon response whose own status field is not "OK". -/
def beaconBad : BeaconAPIResponse := ⟨"ERROR", ⟨0, 7, 1, 1, 0⟩⟩

/-- Storage oracle answering `0xff` at an unrelated key and `0x00` elsewhere. -/
def headStorageA : String → Except RpcError String :=
  fun k => if k = "unrelated" then .ok "0xff" else .ok "0x00"

/-- Environment whose storage differs from `envB`'s only at an unrelated key. -/
def envA : HeadEnv := ⟨headStorageA, fun _ => .ok none, 0⟩

/-- Environment whose storage answers `0x00` at every key. -/
def envB : HeadEnv := ⟨fun _ => .ok "0x00", fun _ => .ok none, 0⟩

/-- Environment whose storage reads all answer a 1-byte value, too short to
SCALE-decode as a `u64`. -/
def envShortStorage : HeadEnv := ⟨fun _ => .ok "0x12", fun _ => .ok (some beaconOK), 1700000000⟩

/-- Environment whose beacon lookup parses but reports status "ERROR". -/
def envBadStatus : HeadEnv :=
  ⟨fun _ => .ok "0x0100000000000000", fun _ => .ok (some beaconBad), 5⟩

/-- Environment whose storage decodes to timestamp 200 while the consumer clock
reads 100 — a "future timestamp". -/
def envFuture : HeadEnv :=
  ⟨fun _ => .ok "0xc800000000000000", fun _ => .ok (some beaconOK), 100⟩

/-- C2: the second storage key of `get_eth_head` is exactly the "Succinct" /
"Timestamps" pallet prefix followed by the exact value returned by the first
read (its hex tail after `0x`); changing that value changes the derived key;
and the handler's outcome depends on storage only through the head key and the
timestamp key derived from the first result — no other cell is consulted. -/
theorem getDAHead_timestamp_key_dependent :
    (∀ v : String, timestamp_key v =
      "0x" ++ hexEncode (twox_128 (strBytes "Succinct"))
        ++ hexEncode (twox_128 (strBytes "Timestamps")) ++ v.drop 2) ∧
    (∀ v w : String, v.drop 2 ≠ w.drop 2 → timestamp_key v ≠ timestamp_key w) ∧
    (∀ env env' : HeadEnv,
      env'.storage succinct_head_key = env.storage succinct_head_key →
      (∀ v, env.storage succinct_head_key = .ok v →
        env'.storage (timestamp_key v) = env.storage (timestamp_key v)) →
      env'.beacon = env.beacon → env'.now = env.now →
      get_eth_head env' = get_eth_head env) := by
  refine ⟨fun v => rfl, fun v w hne he => hne (string_append_cancel he), ?_⟩
  intro env env' h1 h2 hb hn
  unfold get_eth_head
  rw [h1, hb, hn]
  cases hv : env.storage succinct_head_key with
  | error e => rfl
  | ok v => simp only [h2 v hv]

/-- C2 witness: two distinct first-read values yield distinct timestamp keys,
and two environments agreeing on the head key and the derived timestamp key
(but differing at an unrelated key) produce identical heads. -/
theorem getDAHead_timestamp_key_dependent_witness :
    ("0xaa" : String).drop 2 ≠ ("0xbb" : String).drop 2 ∧
    timestamp_key "0xaa" ≠ timestamp_key "0xbb" ∧
    get_eth_head envB = get_eth_head envA := by
  refine ⟨by decide, getDAHead_timestamp_key_dependent.2.1 "0xaa" "0xbb" (by decide),
    getDAHead_timestamp_key_dependent.2.2 envA envB ?_ ?_ rfl rfl⟩
  · decide
  · intro v hv
    have hkey : envA.storage succinct_head_key = Except.ok "0x00" := by decide
    rw [hkey] at hv
    cases hv
    decide

/-- C9 counterexample: a storage value too short to SCALE-decode as a `u64`
(one byte) makes `get_eth_head` panic on `unwrap` — modelled as `none` — rather
than return a `DecodeError`-classified error response. -/
theorem getDAHead_malformed_storage_panics :
    get_eth_head envShortStorage = none := by
  rfl

/-- C9 amended: transport failures at either storage read or the beacon call
are classified and abort the chain with a 500 error body, and an unparseable
beacon body yields a fixed 500 message; but malformed storage bytes (invalid
hex or too short for a `u64`) panic — no result at all — instead of producing
a `DecodeError` result. -/
theorem getDAHead_step_failure_taxonomy :
    (∀ env e, env.storage succinct_head_key = .error e →
      get_eth_head env = some (500, cacheShort, .failure e.message)) ∧
    (∀ env v e, env.storage succinct_head_key = .ok v →
      env.storage (timestamp_key v) = .error e →
      get_eth_head env = some (500, cacheShort, .failure e.message)) ∧
    (∀ env v w, env.storage succinct_head_key = .ok v →
      env.storage (timestamp_key v) = .ok w →
      (decodeU64FromHex v = none ∨ decodeU64FromHex w = none) →
      get_eth_head env = none) ∧
    (∀ env v w s t e, env.storage succinct_head_key = .ok v →
      env.storage (timestamp_key v) = .ok w →
      decodeU64FromHex v = some s → decodeU64FromHex w = some t →
      env.beacon s = .error e →
      get_eth_head env = some (500, cacheShort, .failure e)) ∧
    (∀ env v w s t, env.storage succinct_head_key = .ok v →
      env.storage (timestamp_key v) = .ok w →
      decodeU64FromHex v = some s → decodeU64FromHex w = some t →
      env.beacon s = .ok none →
      get_eth_head env = some (500, cacheShort,
        .failure "Cannot get beacon api response")) := by
  refine ⟨?_, ?_, ?_, ?_, ?_⟩
  · intro env e h1
    simp [get_eth_head, h1]
  · intro env v e h1 h2
    simp [get_eth_head, h1, h2]
  · intro env v w h1 h2 h3
    rcases h3 with h3 | h3
    · simp [get_eth_head, h1, h2, h3]
    · cases hv : decodeU64FromHex v <;> simp [get_eth_head, h1, h2, hv, h3]
  · intro env v w s t e h1 h2 h3 h4 h5
    simp [get_eth_head, h1, h2, h3, h4, h5]
  · intro env v w s t h1 h2 h3 h4 h5
    simp [get_eth_head, h1, h2, h3, h4, h5]

/-- C9 witness: the short-storage environment satisfies the malformed-bytes
case and indeed yields the panic outcome. -/
theorem getDAHead_step_failure_taxonomy_witness :
    decodeU64FromHex "0x12" = none ∧ get_eth_head envShortStorage = none :=
  ⟨by rfl, getDAHead_step_failure_taxonomy.2.2.1 envShortStorage "0x12" "0x12" (by rfl) (by rfl)
    (Or.inl (by rfl))⟩

/-- C10 counterexample: with every storage read decoding to 1 and a beacon body
whose own status is "ERROR", `get_eth_head` still answers 200 and uses the
body's exec block number (7) as valid data — the beacon status is ignored
there, contrary to the claim. -/
theorem getDAHead_ignores_beacon_status :
    beaconBad.status ≠ "OK" ∧
    get_eth_head envBadStatus = some (200, cacheForever, .success ⟨1, 7, 1, 4⟩) :=
  ⟨by decide, by rfl⟩

/-- C10 amended: `get_beacon_slot` does treat a parsed body's non-"OK" status
as a failure (500, fixed message) and only an "OK" status as valid data; but
the beacon step of `get_eth_head` never inspects the status field — any parsed
body is used as valid data regardless of its status. -/
theorem beacon_status_check_locations :
    (∀ r : BeaconAPIResponse, r.status ≠ "OK" →
      get_beacon_slot (.ok (.ok r)) = (500, cacheShort, .failure "Cannot fetch slot data")) ∧
    (∀ r : BeaconAPIResponse, r.status = "OK" →
      get_beacon_slot (.ok (.ok r)) = (200, cacheForever, .success r.data.exec_block_number)) ∧
    (∀ env v w s t (r : BeaconAPIResponse), env.storage succinct_head_key = .ok v →
      env.storage (timestamp_key v) = .ok w →
      decodeU64FromHex v = some s → decodeU64FromHex w = some t →
      env.beacon s = .ok (some r) →
      get_eth_head env = some (200, cacheForever,
        .success ⟨s, r.data.exec_block_number, t, wrapSub64 env.now t⟩)) := by
  refine ⟨?_, ?_, fun env v w s t r h1 h2 h3 h4 h5 => get_eth_head_ok env v w s t r h1 h2 h3 h4 h5⟩
  · intro r hr
    simp [get_beacon_slot, hr]
  · intro r hr
    simp [get_beacon_slot, hr]

/-- C10 witness: the non-"OK" fixture is rejected by `get_beacon_slot` but
accepted as valid data by `get_eth_head`. -/
theorem beacon_status_check_locations_witness :
    get_beacon_slot (.ok (.ok beaconBad)) = (500, cacheShort, .failure "Cannot fetch slot data") ∧
    get_eth_head envBadStatus = some (200, cacheForever, .success ⟨1, 7, 1, wrapSub64 5 1⟩) :=
  ⟨beacon_status_check_locations.1 beaconBad (by decide),
   beacon_status_check_locations.2.2 envBadStatus "0x0100000000000000" "0x0100000000000000"
     1 1 beaconBad (by rfl) (by rfl) (by rfl) (by rfl) (by rfl)⟩

/-- C4 counterexample: with the consumer clock at 100 and a decoded (future)
timestamp of 200, `get_eth_head` reports `timestamp_diff` as the u64 wraparound
value 2^64 - 100, which is neither `now - timestamp = -100` nor negative —
the claimed as-is negative diff never occurs. -/
theorem timestampDiff_wraps_not_negative :
    get_eth_head envFuture =
      some (200, cacheForever, .success ⟨200, 500, 200, 18446744073709551516⟩) ∧
    ((18446744073709551516 : Int) ≠ (100 : Int) - (200 : Int)) ∧
    ¬ ((18446744073709551516 : Int) < 0) :=
  ⟨by rfl, by decide, by decide⟩

/-- C4 amended: `timestamp_diff` is the u64 wrapping difference
`(now - timestamp) mod 2^64`: when the timestamp does not exceed the clock it
equals `now - timestamp` exactly, with no clamping; a future timestamp wraps
to `2^64 - (timestamp - now)`, a large unsigned value rather than a negative
one (a debug build would panic on the underflow instead).  The success body of
`get_eth_head` carries exactly this value. -/
theorem timestampDiff_wrapping_semantics :
    (∀ now ts : Nat, ts % M64 ≤ now % M64 → wrapSub64 now ts = now % M64 - ts % M64) ∧
    (∀ now ts : Nat, now % M64 < ts % M64 → wrapSub64 now ts = M64 - (ts % M64 - now % M64)) ∧
    (∀ env v w s t (r : BeaconAPIResponse), env.storage succinct_head_key = .ok v →
      env.storage (timestamp_key v) = .ok w →
      decodeU64FromHex v = some s → decodeU64FromHex w = some t →
      env.beacon s = .ok (some r) →
      get_eth_head env = some (200, cacheForever,
        .success ⟨s, r.data.exec_block_number, t, wrapSub64 env.now t⟩)) := by
  refine ⟨?_, ?_, fun env v w s t r h1 h2 h3 h4 h5 => get_eth_head_ok env v w s t r h1 h2 h3 h4 h5⟩
  · intro now ts h
    simp only [wrapSub64, M64] at *
    omega
  · intro now ts h
    simp only [wrapSub64, M64] at *
    omega

/-- C4 witness: a past timestamp gives the exact unclamped difference, a future
timestamp the wrapped value. -/
theorem timestampDiff_wrapping_semantics_witness :
    ((200 : Nat) % M64 ≤ 1700000000 % M64 ∧ wrapSub64 1700000000 200 = 1699999800) ∧
    ((100 : Nat) % M64 < 200 % M64 ∧ wrapSub64 100 200 = 18446744073709551516) :=
  ⟨⟨by decide, timestampDiff_wrapping_semantics.1 1700000000 200 (by decide)⟩,
   ⟨by decide, timestampDiff_wrapping_semantics.2.1 100 200 (by decide)⟩⟩
